import Mathlib

/-!
Shallow embedding of the MAAS AngularJS fragments under verification:
the VLANsManager factory (vlans.js) and the SubnetDetailsController.

Conventions of the embedding:
- JavaScript values sent over the RPC channel are modelled by the `JVal`
  inductive; a params object literal becomes `JVal.obj` with its fields in
  source order.
- `RegionConnection.callMethod` is modelled as constructing the RPC frame it
  sends; the returned `RpcCall` stands for the promise the call returns.
- Methods of a manager that may touch the cached collection are modelled in
  state-passing style: they take the cached collection and return the RPC
  frame they issue together with the collection after the call.
- A JavaScript expression that can throw a TypeError (dereferencing a missing
  object) is modelled as returning `Option`, with `none` standing for the
  fault.
-/

/-- JavaScript values carried in RPC params and results. -/
inductive JVal : Type where
  | null : JVal
  | num (n : Int) : JVal
  | str (s : String) : JVal
  | list (xs : List JVal) : JVal
  | obj (fields : List (String × JVal)) : JVal

/-- Keys of a JavaScript object literal, in source order. -/
def JVal.keys : JVal → List String
  | .obj fields => fields.map Prod.fst
  | _ => []

/-- Field lookup on a JavaScript object. -/
def JVal.get? : JVal → String → Option JVal
  | .obj fields, k => (fields.find? (fun p => p.fst = k)).map Prod.snd
  | _, _ => none

/-- An RPC frame sent over the region connection; stands for the promise
returned by RegionConnection.callMethod. -/
structure RpcCall where
  method : String
  params : JVal
  suppressErrorDialog : Bool

/-- RegionConnection.callMethod serializes the method name and params into a
request frame; an omitted third argument in the JavaScript source is falsy
and is embedded as `false`. -/
def RegionConnection.callMethod (method : String) (params : JVal)
    (suppressErrorDialog : Bool) : RpcCall :=
  { method := method, params := params, suppressErrorDialog := suppressErrorDialog }

/-- A VLAN object as used by the manager: `name` is `some s` when the
JavaScript field is the string `s`, and `none` when it is not a string. -/
structure VLAN where
  id : Int
  vid : Int
  name : Option String
  fabric : Int
  deriving DecidableEq

/-- VLANsManager.prototype.getName from vlans.js: starts with the numeric
`vid`; replaces it by "untagged" when `vid === 0`; otherwise appends
" (name)" when the name is a non-empty string. -/
def VLANsManager.getName (vlan : VLAN) : JVal :=
  if vlan.vid = 0 then
    .str "untagged"
  else
    match vlan.name with
    | some s => if s = "" then .num vlan.vid else .str (toString vlan.vid ++ " (" ++ s ++ ")")
    | none => .num vlan.vid

/-- VLANsManager.prototype.deleteVLAN from vlans.js: issues vlan.delete with
params holding only the id, and does not touch the cached collection. -/
def VLANsManager.deleteVLAN (cache : List VLAN) (vlan : VLAN) : RpcCall × List VLAN :=
  (RegionConnection.callMethod "vlan.delete" (.obj [("id", .num vlan.id)]) true, cache)

/-- VLANsManager.prototype.configureDHCP from vlans.js: issues
vlan.configure_dhcp with params id, controllers, extra. -/
def VLANsManager.configureDHCP (cache : List VLAN) (vlan : VLAN)
    (controllers : List JVal) (extra : JVal) : RpcCall × List VLAN :=
  (RegionConnection.callMethod "vlan.configure_dhcp"
    (.obj [("id", .num vlan.id), ("controllers", .list controllers), ("extra", extra)]) true,
   cache)

/-- VLANsManager.prototype.disableDHCP from vlans.js: issues
vlan.configure_dhcp with params id and an empty controllers list; the source
object literal has no extra field. -/
def VLANsManager.disableDHCP (cache : List VLAN) (vlan : VLAN) : RpcCall × List VLAN :=
  (RegionConnection.callMethod "vlan.configure_dhcp"
    (.obj [("id", .num vlan.id), ("controllers", .list [])]) true,
   cache)

/-- VLANsManager.prototype.create from vlans.js: issues vlan.create with the
vlan object itself as params and does not add the item to the cached list
(the source comment says the NOTIFY event will add it). -/
def VLANsManager.create (cache : List VLAN) (vlan : JVal) : RpcCall × List VLAN :=
  (RegionConnection.callMethod "vlan.create" vlan false, cache)

/-- A notification event for the vlan type key. -/
inductive NotifyAction : Type where
  | create (data : VLAN) : NotifyAction
  | update (data : VLAN) : NotifyAction
  | delete (pk : Int) : NotifyAction

/-- Modelled from the spec: the generic Manager base class is not among the
provided source files; per the spec, onNotify applies a create by appending
when the primary key is not already present, an update by replacing the
matching entry in place, and a delete by removing the matching entry. -/
def Manager.onNotify (cache : List VLAN) : NotifyAction → List VLAN
  | .create data => if cache.any (fun it => it.id == data.id) then cache else cache ++ [data]
  | .update data => cache.map (fun it => if it.id == data.id then data else it)
  | .delete pk => cache.filter (fun it => it.id != pk)

/-- Modelled from the spec: Manager.getItemFromList is part of the generic
Manager base class absent from the provided sources; per the spec, item
lookup is by primary key and yields the object or nothing when absent. -/
def Manager.getItemFromList (cache : List VLAN) (pk : Int) : Option VLAN :=
  cache.find? (fun it => it.id == pk)

/-- A subnet object as used by the controller: vlan and fabric are foreign
keys stored by value. -/
structure Subnet where
  id : Int
  vlan : Int
  fabric : Int
  deriving DecidableEq

/-- A fabric object: carries the primary key of its default VLAN. -/
structure Fabric where
  id : Int
  default_vlan_id : Int
  deriving DecidableEq

/-- Modelled from the spec: FabricsManager shares the generic Manager base
class lookup, by primary key, yielding the object or nothing when absent. -/
def FabricsManager.getItemFromList (cache : List Fabric) (pk : Int) : Option Fabric :=
  cache.find? (fun it => it.id == pk)

/-- The updateFabric closure from subnetLoaded in the controller: it sets
subnet.fabric to the fabric field of the VLAN looked up by subnet.vlan. The
lookup result is dereferenced without a guard, so a missing VLAN is a
TypeError, embedded as `none`. -/
def updateFabric (vlans : List VLAN) (subnet : Subnet) : Option Subnet :=
  match Manager.getItemFromList vlans subnet.vlan with
  | some v => some { subnet with fabric := v.fabric }
  | none => none

/-- The subnetPreSave scope function: when "fabric" is among the changed
fields it sets subnet.vlan to the default_vlan_id of the fabric looked up by
subnet.fabric, dereferencing the lookup result without a guard (a missing
fabric is a TypeError, embedded as `none`); otherwise it returns the subnet
unchanged. -/
def subnetPreSave (fabrics : List Fabric) (subnet : Subnet)
    (changedFields : List String) : Option Subnet :=
  if "fabric" ∈ changedFields then
    match FabricsManager.getItemFromList fabrics subnet.fabric with
    | some f => some { subnet with vlan := f.default_vlan_id }
    | none => none
  else
    some subnet

/-- The ALLOC_TYPES mapping of the controller: a lookup that yields the
mapped string for a known code and nothing otherwise. -/
def ALLOC_TYPES (code : Int) : Option String :=
  if code = 0 then some "Automatic"
  else if code = 1 then some "Static"
  else if code = 4 then some "User reserved"
  else if code = 5 then some "DHCP"
  else if code = 6 then some "Observed"
  else none

/-- The getAllocType scope function: returns the looked-up string when the
lookup produced a string, and "Unknown" otherwise. -/
def getAllocType (allocType : Int) : String :=
  match ALLOC_TYPES allocType with
  | some s => s
  | none => "Unknown"

/-- The NODE_TYPES mapping of the controller. -/
def NODE_TYPES (code : Int) : Option String :=
  if code = 0 then some "Machine"
  else if code = 1 then some "Device"
  else if code = 2 then some "Rack controller"
  else if code = 3 then some "Region controller"
  else if code = 4 then some "Rack and region controller"
  else none

/-- The getNodeType scope function: returns the looked-up string when the
lookup produced a string, and "Unknown" otherwise. -/
def getNodeType (nodeType : Int) : String :=
  match NODE_TYPES nodeType with
  | some s => s
  | none => "Unknown"

/-- Accumulate a decimal digit sequence into a natural number. -/
def digitsToNat (digits : List Char) : Nat :=
  digits.foldl (fun acc c => acc * 10 + (c.toNat - 48)) 0

/-- JavaScript parseInt with radix 10: skip leading whitespace, read an
optional sign, then the longest prefix of decimal digits; NaN (here `none`)
when no digit is read. -/
def parseIntJS (s : String) : Option Int :=
  let cs := s.toList.dropWhile Char.isWhitespace
  match cs with
  | '-' :: rest =>
    let digits := rest.takeWhile Char.isDigit
    if digits.isEmpty then none else some (-(digitsToNat digits : Int))
  | '+' :: rest =>
    let digits := rest.takeWhile Char.isDigit
    if digits.isEmpty then none else some ((digitsToNat digits : Int))
  | _ =>
    let digits := cs.takeWhile Char.isDigit
    if digits.isEmpty then none else some ((digitsToNat digits : Int))

/-- The single action taken by the loadManagers callback of the controller. -/
inductive LoadAction : Type where
  | raiseError (msg : String) : LoadAction
  | useActive (subnet : Subnet) : LoadAction
  | setActive (pk : Int) : LoadAction

/-- The loadManagers callback of SubnetDetailsController: parse the route
parameter with parseInt(.., 10); on NaN raise an error; when the active item
is an object whose id strictly equals the parsed integer, call subnetLoaded
on it directly; otherwise call SubnetsManager.setActiveItem. -/
def loadManagersCallback (activeSubnet : Option Subnet) (subnetIdParam : String) : LoadAction :=
  match parseIntJS subnetIdParam with
  | none => .raiseError "Invalid subnet identifier."
  | some requestedSubnet =>
    match activeSubnet with
    | some active =>
      if active.id = requestedSubnet then .useActive active else .setActive requestedSubnet
    | none => .setActive requestedSubnet

/-- Outcome of the SubnetsManager.deleteSubnet promise as observed by the
then-handlers of deleteConfirmButton. -/
inductive PromiseOutcome : Type where
  | resolved : PromiseOutcome
  | rejected (error : String) : PromiseOutcome

/-- The scope fields touched by the delete-subnet confirmation flow. -/
structure DeleteScope where
  confirmingDelete : Bool
  error : Option String
  locationPath : Option String
  deriving DecidableEq

/-- The deleteConfirmButton scope function, as the state transformer applied
once the deleteSubnet promise settles: on success it clears confirmingDelete
and navigates to /networks; on failure it stores the parsed validation error
in scope.error and touches nothing else. The injected
ManagerHelperService.parseValidationError is passed in as a function. -/
def deleteConfirmButton (parseValidationError : String → String)
    (scope : DeleteScope) (outcome : PromiseOutcome) : DeleteScope :=
  match outcome with
  | .resolved => { scope with confirmingDelete := false, locationPath := some "/networks" }
  | .rejected e => { scope with error := some (parseValidationError e) }

/-- The scope fields holding the IP-range edit and delete modes; ranges are
compared by object identity, embedded as a type with decidable equality. -/
structure IPModeState (α : Type) where
  editIPRange : Option α
  deleteIPRange : Option α

/-- Initial values of the controller scope: both mode fields start null. -/
def initIPModeState (α : Type) : IPModeState α :=
  { editIPRange := none, deleteIPRange := none }

/-- The isIPRangeInEditMode scope function: identity comparison with the
current editIPRange. -/
def isIPRangeInEditMode {α : Type} [DecidableEq α] (scope : IPModeState α) (range : α) : Bool :=
  scope.editIPRange = some range

/-- The ipRangeToggleEditMode scope function: clears deleteIPRange first,
then toggles editIPRange for the given range. -/
def ipRangeToggleEditMode {α : Type} [DecidableEq α]
    (scope : IPModeState α) (range : α) : IPModeState α :=
  let scope1 := { scope with deleteIPRange := (none : Option α) }
  if isIPRangeInEditMode scope1 range then
    { scope1 with editIPRange := none }
  else
    { scope1 with editIPRange := some range }

/-- The ipRangeEnterDeleteMode scope function: clears editIPRange and sets
deleteIPRange to the given range. -/
def ipRangeEnterDeleteMode {α : Type} (scope : IPModeState α) (range : α) : IPModeState α :=
  { scope with editIPRange := none, deleteIPRange := some range }

/-- The ipRangeCancelDelete scope function: clears deleteIPRange. -/
def ipRangeCancelDelete {α : Type} (scope : IPModeState α) : IPModeState α :=
  { scope with deleteIPRange := none }

/-- Mutual exclusion of the two IP-range modes: at most one is set. -/
def ipModeMutex {α : Type} (scope : IPModeState α) : Prop :=
  scope.editIPRange = none ∨ scope.deleteIPRange = none

/-- The scope fields touched by sortIPTable; the predicate is an opaque-to-us
scope value, embedded as an arbitrary type. -/
structure SortScope (α : Type) where
  predicate : α
  reverse : Bool

/-- The sortIPTable scope function: stores the predicate and negates the
reverse flag. -/
def sortIPTable {α : Type} (scope : SortScope α) (p : α) : SortScope α :=
  { predicate := p, reverse := !scope.reverse }

/-- Claim C1: VLANsManager.create issues the RPC method vlan.create with the
vlan as params, returns that call, and leaves the cached collection
unchanged; the created object enters the cache only through the subsequent
create notification, which appends it when its primary key is absent. -/
theorem create_issues_rpc_and_leaves_cache (cache : List VLAN) (vlan : JVal) :
    VLANsManager.create cache vlan
      = (RegionConnection.callMethod "vlan.create" vlan false, cache)
    ∧ (VLANsManager.create cache vlan).2 = cache
    ∧ ∀ data : VLAN, (∀ it ∈ cache, it.id ≠ data.id) →
        Manager.onNotify cache (.create data) = cache ++ [data] := by
  refine ⟨rfl, rfl, ?_⟩
  intro data h
  have h2 : cache.any (fun it => it.id == data.id) = false := by
    simp only [List.any_eq_false]
    intro it hit
    simpa using h it hit
  simp [Manager.onNotify, h2]

/-- Witness for claim C1 at concrete inputs. -/
theorem create_issues_rpc_and_leaves_cache_witness :
    VLANsManager.create [] (.num 7)
      = (RegionConnection.callMethod "vlan.create" (.num 7) false, [])
    ∧ Manager.onNotify [] (.create ⟨1, 2, none, 3⟩) = [⟨1, 2, none, 3⟩] := by
  constructor
  · exact (create_issues_rpc_and_leaves_cache [] (.num 7)).1
  · simpa using (create_issues_rpc_and_leaves_cache [] (.num 7)).2.2 ⟨1, 2, none, 3⟩ (by simp)

/-- Claim C2 counterexample: disableDHCP issues vlan.configure_dhcp whose
params carry only the keys id and controllers; the key extra is absent,
refuting the claim that every vlan.configure_dhcp invocation issued by the
manager carries exactly the keys id, controllers and extra. -/
theorem disable_dhcp_lacks_extra_key :
    ((VLANsManager.disableDHCP [] ⟨1, 1, none, 0⟩).1).params.keys = ["id", "controllers"]
    ∧ ((VLANsManager.disableDHCP [] ⟨1, 1, none, 0⟩).1).params.keys
        ≠ ["id", "controllers", "extra"]
    ∧ ((VLANsManager.disableDHCP [] ⟨1, 1, none, 0⟩).1).params.get? "extra" = none := by
  refine ⟨rfl, by decide, rfl⟩

/-- Claim C2 amended: configureDHCP issues vlan.configure_dhcp whose params
carry exactly the keys id, controllers and extra with id bound to vlan.id,
while disableDHCP issues vlan.configure_dhcp whose params carry exactly the
keys id and controllers, with id bound to vlan.id and controllers the empty
list. -/
theorem configure_dhcp_params (cache : List VLAN) (vlan : VLAN)
    (controllers : List JVal) (extra : JVal) :
    ((VLANsManager.configureDHCP cache vlan controllers extra).1).method
        = "vlan.configure_dhcp"
    ∧ ((VLANsManager.configureDHCP cache vlan controllers extra).1).params
        = .obj [("id", .num vlan.id), ("controllers", .list controllers), ("extra", extra)]
    ∧ ((VLANsManager.disableDHCP cache vlan).1).method = "vlan.configure_dhcp"
    ∧ ((VLANsManager.disableDHCP cache vlan).1).params
        = .obj [("id", .num vlan.id), ("controllers", .list [])] :=
  ⟨rfl, rfl, rfl, rfl⟩

/-- Witness for the amended claim C2 at concrete inputs. -/
theorem configure_dhcp_params_witness :
    ((VLANsManager.configureDHCP [] ⟨2, 0, none, 0⟩ [.num 8] .null).1).params
      = .obj [("id", .num 2), ("controllers", .list [.num 8]), ("extra", .null)] :=
  (configure_dhcp_params [] ⟨2, 0, none, 0⟩ [.num 8] .null).2.1

/-- Claim C3: deleteVLAN issues vlan.delete with params consisting solely of
the key id bound to vlan.id, returns that call, and leaves the cached
collection unchanged; removal happens only in the delete notification
handler, after which no entry with the deleted primary key remains. -/
theorem deleteVLAN_rpc_and_cache (cache : List VLAN) (vlan : VLAN) :
    VLANsManager.deleteVLAN cache vlan
      = (RegionConnection.callMethod "vlan.delete" (.obj [("id", .num vlan.id)]) true, cache)
    ∧ (VLANsManager.deleteVLAN cache vlan).2 = cache
    ∧ ∀ pk : Int, ∀ it ∈ Manager.onNotify cache (.delete pk), it.id ≠ pk := by
  refine ⟨rfl, rfl, ?_⟩
  intro pk it hit
  unfold Manager.onNotify at hit
  simp only [List.mem_filter, bne_iff_ne, ne_eq] at hit
  exact hit.2

/-- Witness for claim C3 at concrete inputs. -/
theorem deleteVLAN_rpc_and_cache_witness :
    VLANsManager.deleteVLAN [] ⟨3, 0, none, 0⟩
      = (RegionConnection.callMethod "vlan.delete" (.obj [("id", .num 3)]) true, [])
    ∧ (⟨5, 0, none, 0⟩ : VLAN).id ≠ 4 := by
  constructor
  · exact (deleteVLAN_rpc_and_cache [] ⟨3, 0, none, 0⟩).1
  · exact (deleteVLAN_rpc_and_cache [⟨5, 0, none, 0⟩] ⟨3, 0, none, 0⟩).2.2 4
      ⟨5, 0, none, 0⟩ (by simp [Manager.onNotify])

/-- Claim C4: when the route parameter parses to an integer equal to the id
of the current active item, the loadManagers callback uses that active item
directly (subnetLoaded on it) and does not call setActiveItem. -/
theorem load_uses_active_item (activeSubnet : Subnet) (subnetIdParam : String) (n : Int)
    (hparse : parseIntJS subnetIdParam = some n) (hid : activeSubnet.id = n) :
    loadManagersCallback (some activeSubnet) subnetIdParam = .useActive activeSubnet := by
  unfold loadManagersCallback
  rw [hparse]
  simp [hid]

/-- Witness for claim C4 at concrete inputs. -/
theorem load_uses_active_item_witness :
    loadManagersCallback (some ⟨5, 1, 1⟩) "5" = .useActive ⟨5, 1, 1⟩ :=
  load_uses_active_item ⟨5, 1, 1⟩ "5" 5 (by decide) rfl

/-- Claim C5 counterexample: with no matching referent loaded, both
updateFabric and subnetPreSave dereference the absent lookup result and
fault (embedded as none), refuting the claim that every such resolving
operation completes without faulting. -/
theorem missing_referent_faults :
    updateFabric [] ⟨1, 42, 0⟩ = none
    ∧ subnetPreSave [] ⟨1, 0, 7⟩ ["fabric"] = none := by
  exact ⟨rfl, by simp [subnetPreSave, FabricsManager.getItemFromList]⟩

/-- Claim C5 amended: the foreign-key resolving operations dereference the
lookup result unguarded, so they complete without faulting exactly when the
referent is present: updateFabric succeeds when some loaded VLAN matches
subnet.vlan and faults when none does; subnetPreSave succeeds when some
loaded fabric matches subnet.fabric and, when the fabric field changed and
no fabric matches, faults. -/
theorem foreign_key_resolution_characterized :
    (∀ (vlans : List VLAN) (subnet : Subnet),
        (∃ v ∈ vlans, v.id = subnet.vlan) → (updateFabric vlans subnet).isSome = true)
    ∧ (∀ (vlans : List VLAN) (subnet : Subnet),
        (∀ v ∈ vlans, v.id ≠ subnet.vlan) → updateFabric vlans subnet = none)
    ∧ (∀ (fabrics : List Fabric) (subnet : Subnet) (changedFields : List String),
        (∃ f ∈ fabrics, f.id = subnet.fabric) →
          (subnetPreSave fabrics subnet changedFields).isSome = true)
    ∧ (∀ (fabrics : List Fabric) (subnet : Subnet) (changedFields : List String),
        "fabric" ∈ changedFields → (∀ f ∈ fabrics, f.id ≠ subnet.fabric) →
          subnetPreSave fabrics subnet changedFields = none) := by
  refine ⟨?_, ?_, ?_, ?_⟩
  · intro vlans subnet h
    obtain ⟨v, hv, hid⟩ := h
    unfold updateFabric Manager.getItemFromList
    rcases hfind : vlans.find? (fun it => it.id == subnet.vlan) with _ | w
    · exfalso
      have := List.find?_eq_none.mp hfind v hv
      simp [hid] at this
    · simp [hfind]
  · intro vlans subnet h
    unfold updateFabric Manager.getItemFromList
    have hnone : vlans.find? (fun it => it.id == subnet.vlan) = none := by
      rw [List.find?_eq_none]
      intro v hv
      simpa using h v hv
    rw [hnone]
  · intro fabrics subnet changedFields h
    obtain ⟨f, hf, hid⟩ := h
    unfold subnetPreSave FabricsManager.getItemFromList
    by_cases hmem : "fabric" ∈ changedFields
    · rw [if_pos hmem]
      rcases hfind : fabrics.find? (fun it => it.id == subnet.fabric) with _ | w
      · exfalso
        have := List.find?_eq_none.mp hfind f hf
        simp [hid] at this
      · simp [hfind]
    · rw [if_neg hmem]
      rfl
  · intro fabrics subnet changedFields hmem h
    unfold subnetPreSave FabricsManager.getItemFromList
    rw [if_pos hmem]
    have hnone : fabrics.find? (fun it => it.id == subnet.fabric) = none := by
      rw [List.find?_eq_none]
      intro f hf
      simpa using h f hf
    rw [hnone]

/-- Witness for the amended claim C5 at concrete inputs. -/
theorem foreign_key_resolution_witness :
    (updateFabric [⟨9, 0, none, 77⟩] ⟨1, 9, 0⟩).isSome = true
    ∧ subnetPreSave [⟨4, 0⟩] ⟨1, 0, 6⟩ ["fabric"] = none := by
  constructor
  · exact foreign_key_resolution_characterized.1 [⟨9, 0, none, 77⟩] ⟨1, 9, 0⟩
      ⟨⟨9, 0, none, 77⟩, by simp, rfl⟩
  · exact foreign_key_resolution_characterized.2.2.2 [⟨4, 0⟩] ⟨1, 0, 6⟩ ["fabric"]
      (by simp) (by decide)

/-- Claim C6: getAllocType maps the codes 0, 1, 4, 5, 6 to their names and
every other integer code to "Unknown"; getNodeType maps the codes 0 to 4 to
their names and every other integer code to "Unknown". -/
theorem alloc_and_node_type_mappings :
    (∀ code : Int, code ∉ ([0, 1, 4, 5, 6] : List Int) → getAllocType code = "Unknown")
    ∧ getAllocType 0 = "Automatic" ∧ getAllocType 1 = "Static"
    ∧ getAllocType 4 = "User reserved" ∧ getAllocType 5 = "DHCP"
    ∧ getAllocType 6 = "Observed"
    ∧ (∀ code : Int, code ∉ ([0, 1, 2, 3, 4] : List Int) → getNodeType code = "Unknown")
    ∧ getNodeType 0 = "Machine" ∧ getNodeType 1 = "Device"
    ∧ getNodeType 2 = "Rack controller" ∧ getNodeType 3 = "Region controller"
    ∧ getNodeType 4 = "Rack and region controller" := by
  refine ⟨?_, rfl, rfl, rfl, rfl, rfl, ?_, rfl, rfl, rfl, rfl, rfl⟩
  · intro code h
    simp only [List.mem_cons, List.not_mem_nil, or_false, not_or] at h
    obtain ⟨h0, h1, h4, h5, h6⟩ := h
    simp [getAllocType, ALLOC_TYPES, h0, h1, h4, h5, h6]
  · intro code h
    simp only [List.mem_cons, List.not_mem_nil, or_false, not_or] at h
    obtain ⟨h0, h1, h2, h3, h4⟩ := h
    simp [getNodeType, NODE_TYPES, h0, h1, h2, h3, h4]

/-- Witness for claim C6 at concrete out-of-range codes. -/
theorem alloc_and_node_type_mappings_witness :
    getAllocType 2 = "Unknown" ∧ getNodeType 7 = "Unknown" :=
  ⟨alloc_and_node_type_mappings.1 2 (by decide),
   alloc_and_node_type_mappings.2.2.2.2.2.2.1 7 (by decide)⟩

/-- Claim C7: when the deleteSubnet promise rejects, deleteConfirmButton
stores parseValidationError of the error in scope.error while leaving the
location path and confirmingDelete untouched; when it resolves, it clears
confirmingDelete and navigates to /networks. -/
theorem delete_confirm_branches (parseValidationError : String → String)
    (scope : DeleteScope) (e : String) :
    deleteConfirmButton parseValidationError scope (.rejected e)
      = { scope with error := some (parseValidationError e) }
    ∧ (deleteConfirmButton parseValidationError scope (.rejected e)).locationPath
        = scope.locationPath
    ∧ (deleteConfirmButton parseValidationError scope (.rejected e)).confirmingDelete
        = scope.confirmingDelete
    ∧ deleteConfirmButton parseValidationError scope .resolved
      = { scope with confirmingDelete := false, locationPath := some "/networks" } :=
  ⟨rfl, rfl, rfl, rfl⟩

/-- Witness for claim C7 at concrete inputs. -/
theorem delete_confirm_branches_witness :
    deleteConfirmButton id ⟨true, none, none⟩ (.rejected "bad") = ⟨true, some "bad", none⟩
    ∧ deleteConfirmButton id ⟨true, none, none⟩ .resolved
        = ⟨false, none, some "/networks"⟩ := by
  constructor
  · exact (delete_confirm_branches id ⟨true, none, none⟩ "bad").1
  · exact (delete_confirm_branches id ⟨true, none, none⟩ "bad").2.2.2

/-- Claim C8: editIPRange and deleteIPRange both start null, and each of
ipRangeToggleEditMode, ipRangeEnterDeleteMode and ipRangeCancelDelete leaves
at most one of them set, from any state: entering either mode first clears
the other. -/
theorem ip_range_modes_mutual_exclusion {α : Type} [DecidableEq α] :
    ipModeMutex (initIPModeState α)
    ∧ (∀ (scope : IPModeState α) (range : α),
        ipModeMutex (ipRangeToggleEditMode scope range))
    ∧ (∀ (scope : IPModeState α) (range : α),
        ipModeMutex (ipRangeEnterDeleteMode scope range))
    ∧ (∀ scope : IPModeState α, ipModeMutex (ipRangeCancelDelete scope)) := by
  refine ⟨Or.inl rfl, ?_, ?_, ?_⟩
  · intro scope range
    right
    simp only [ipRangeToggleEditMode]
    split <;> rfl
  · intro scope range
    left
    rfl
  · intro scope
    right
    rfl

/-- Witness for claim C8 at a concrete state violating neither operand. -/
theorem ip_range_modes_mutual_exclusion_witness :
    ipModeMutex (ipRangeToggleEditMode (⟨some 1, some 2⟩ : IPModeState Nat) 1)
    ∧ ipModeMutex (ipRangeEnterDeleteMode (⟨some 1, some 2⟩ : IPModeState Nat) 3) := by
  constructor
  · exact (@ip_range_modes_mutual_exclusion Nat _).2.1 ⟨some 1, some 2⟩ 1
  · exact (@ip_range_modes_mutual_exclusion Nat _).2.2.1 ⟨some 1, some 2⟩ 3

/-- Claim C9: getName returns "untagged" whenever vid is 0, regardless of
the name; otherwise it returns the vid concatenated with the parenthesised
name when the name is a non-empty string, and just the numeric vid when it
is not. -/
theorem getName_cases (vlan : VLAN) :
    (vlan.vid = 0 → VLANsManager.getName vlan = .str "untagged")
    ∧ (vlan.vid ≠ 0 → ∀ s : String, vlan.name = some s → s ≠ "" →
        VLANsManager.getName vlan = .str (toString vlan.vid ++ " (" ++ s ++ ")"))
    ∧ (vlan.vid ≠ 0 → (vlan.name = none ∨ vlan.name = some "") →
        VLANsManager.getName vlan = .num vlan.vid) := by
  refine ⟨?_, ?_, ?_⟩
  · intro h
    simp [VLANsManager.getName, h]
  · intro h s hs hne
    simp [VLANsManager.getName, h, hs, hne]
  · intro h hname
    rcases hname with hn | hn <;> simp [VLANsManager.getName, h, hn]

/-- Witness for claim C9 at concrete vlans covering all three branches. -/
theorem getName_cases_witness :
    VLANsManager.getName ⟨1, 0, some "x", 0⟩ = .str "untagged"
    ∧ VLANsManager.getName ⟨1, 5, some "admin", 0⟩ = .str "5 (admin)"
    ∧ VLANsManager.getName ⟨1, 5, none, 0⟩ = .num 5 := by
  refine ⟨(getName_cases ⟨1, 0, some "x", 0⟩).1 rfl, ?_,
    (getName_cases ⟨1, 5, none, 0⟩).2.2 (by decide) (Or.inl rfl)⟩
  exact (getName_cases ⟨1, 5, some "admin", 0⟩).2.1 (by decide) "admin" rfl (by decide)

/-- Claim C10: sortIPTable stores the predicate and negates the reverse
flag, so applying it twice with the same predicate restores the original
reverse flag while the predicate equals that predicate. -/
theorem sortIPTable_involution {α : Type} (scope : SortScope α) (p : α) :
    sortIPTable scope p = { predicate := p, reverse := !scope.reverse }
    ∧ (sortIPTable (sortIPTable scope p) p).reverse = scope.reverse
    ∧ (sortIPTable (sortIPTable scope p) p).predicate = p := by
  refine ⟨rfl, ?_, rfl⟩
  simp [sortIPTable]

/-- Witness for claim C10 at a concrete scope. -/
theorem sortIPTable_involution_witness :
    (sortIPTable (sortIPTable (⟨0, true⟩ : SortScope Nat) 5) 5).reverse = true :=
  (@sortIPTable_involution Nat ⟨0, true⟩ 5).2.1
